import Mathlib

/-!
Verification development for the Space Motors vehicle-listing catalog.

The repository contains several near-duplicate server variants:
  - server.js lines 1-175   ("variant A")
  - server.js lines 176-373 ("variant B")
  - src/unnamed/part_002    ("variant P2")
plus seed scripts (src/seed/seed.js, src/seed/main-seed.js, src/unnamed/part_000,
src/unnamed/part_001) that declare the same SQLite schema.

This file shallowly embeds the catalog data model (tables `cars` and `images`),
the slug generator, the `/inventario` filter composer of each variant, the
admin mutations (create, update, delete, detach photo) and the WhatsApp
deep-link formatter, and proves or refutes the frozen claims about them.

Modelling conventions:
  - SQLite rows are Lean structures; nullable columns are `Option`;
    `INTEGER` columns are `Int` (ids are `Nat`); `is_sold INTEGER 0/1` is `Bool`;
    `created_at DATETIME` is a `Nat` timestamp supplied at insert time.
  - Request form fields are modelled after JS destructuring plus `parseInt`
    coercion, i.e. already carrying their parsed numeric values; a JS value
    that can be `undefined`/empty is an `Option`.
  - `Date.now()` is an explicit `now : Nat` argument.
  - File persistence (`file.mv`) is modelled by appending the stored name to
    `DB.files`; `fs.unlinkSync` success/failure is an explicit `Bool` argument
    (the route swallows the failure with an empty catch).
  - `run`/`get`/`q` calls become pure list operations on the `DB` state.
-/

namespace SpaceMotors

/-- Characters allowed by the regex class `[a-z0-9]` used by the inline
slugify of part_002 line 206 and the seed scripts. -/
def isLowerAlnum (c : Char) : Bool :=
  (('a' ≤ c && c ≤ 'z') || ('0' ≤ c && c ≤ '9'))

/-- Characters kept by the filename-sanitizing regex `[^a-zA-Z0-9._-]`
(server.js lines 142 and 315). -/
def isSafeFileChar (c : Char) : Bool :=
  (('a' ≤ c && c ≤ 'z') || ('A' ≤ c && c ≤ 'Z') || ('0' ≤ c && c ≤ '9') ||
    c == '.' || c == '_' || c == '-')

/-- The city enum of the schema CHECK constraint
`city IN ('Ciudad de Mexico','Estado de Mexico')` (server.js line 206,
part_002 line 45, seed.js line 27). -/
def cities : List String := ["Ciudad de Mexico", "Estado de Mexico"]

/-- The repuve_status enum (server.js line 210). -/
def repuveValues : List String := ["Limpio", "Con reporte", "No verificado"]

/-- The insurance_status enum (server.js line 211). -/
def insuranceValues : List String := ["Normal", "Perdida total", "Rescatado", "Aseguradora"]

/-- The title_type enum (server.js line 212). -/
def titleTypeValues : List String := ["Factura original", "Refacturado", "Aseguradora"]

/-- A row of the `cars` table (schema at server.js lines 200-217). -/
structure Car where
  id : Nat
  title : String
  price : Int
  year : Int
  mileage : Int
  city : String
  description : Option String
  vin : Option String
  owners : Option Int
  repuve_status : Option String
  insurance_status : Option String
  title_type : Option String
  notes_history : Option String
  slug : String
  is_sold : Bool
  created_at : Nat
deriving DecidableEq

/-- A row of the `images` table (schema at server.js lines 218-222). -/
structure Image where
  id : Nat
  car_id : Nat
  filename : String
deriving DecidableEq

/-- The persistent state: both tables, their AUTOINCREMENT counters, and the
set of stored upload files (UPLOADS_DIR contents). -/
structure DB where
  cars : List Car
  images : List Image
  nextCarId : Nat
  nextImageId : Nat
  files : List String
deriving DecidableEq

/-- The request body of the create/update admin routes, after JS destructuring
and `parseInt` coercion (server.js lines 302-303 and 333-334). `is_sold` is
present in the form body; only the update route reads it. -/
structure Payload where
  title : String
  price : Int
  year : Int
  mileage : Int
  city : String
  description : Option String
  vin : Option String
  owners : Option Int
  repuve_status : Option String
  insurance_status : Option String
  title_type : Option String
  notes_history : Option String
  is_sold : Bool
deriving DecidableEq

/-- The observable HTTP outcome of a mutation route. -/
inductive Outcome where
  | redirect (loc : String)
  | status (code : Nat) (msg : String)
deriving DecidableEq

/-- JS `x || null`: the empty string is falsy and collapses to null. -/
def nullifyEmpty : Option String → Option String
  | some "" => none
  | o => o

/-- JS `x || defaultValue` for string form fields. -/
def defaultIfEmpty (o : Option String) (d : String) : String :=
  match nullifyEmpty o with
  | some s => s
  | none => d

/-- JS `String.prototype.trim`: drop whitespace from both ends. -/
def jsTrim (s : String) : String :=
  ⟨((s.data.dropWhile Char.isWhitespace).reverse.dropWhile Char.isWhitespace).reverse⟩

/-! ### Slug generator

part_002 lines 206-207:
  const slugify = s => s.toLowerCase().replace(/[^a-z0-9]+/g,'-').replace(/(^-|-$)/g,'');
  const slug = slugify(`${title}-${Date.now()}`);
-/

/-- One pass of the regex replace `/[^a-z0-9]+/g, '-'`: every maximal run of
characters outside `[a-z0-9]` becomes a single `'-'`. The flag records
whether we are inside such a run (its opening `'-'` already emitted). -/
def collapseAux : Bool → List Char → List Char
  | _, [] => []
  | inRun, c :: cs =>
    if isLowerAlnum c then c :: collapseAux false cs
    else if inRun then collapseAux true cs
    else '-' :: collapseAux true cs

/-- The regex replace `/(^-|-$)/g, ''`, leading half: the `g`-scan removes at
most one `'-'` at the very start of the string. -/
def stripLeadDash : List Char → List Char
  | [] => []
  | c :: cs => if c == '-' then cs else c :: cs

/-- The regex replace `/(^-|-$)/g, ''`, trailing half: at most one `'-'` at
the very end of the string is removed. -/
def stripTrailDash (cs : List Char) : List Char :=
  (stripLeadDash cs.reverse).reverse

/-- The inline slugify of part_002 line 206: lower-case, collapse runs of
non-`[a-z0-9]` to a single dash, strip one leading and one trailing dash. -/
def slugifyP2 (s : String) : String :=
  ⟨stripTrailDash (stripLeadDash (collapseAux false (s.data.map Char.toLower)))⟩

/-- Slug construction of part_002 line 207: the inline slugify applied to the
title with the `Date.now()` disambiguator already appended. -/
def makeSlug (title : String) (d : Nat) : String :=
  slugifyP2 (title ++ "-" ++ toString d)

/-- Stated from the spec (section 4.2): slugify the title alone, then append
`-<disambiguator>`. Used to compare the source behavior with the claimed
algorithm. -/
def specMakeSlug (title : String) (d : Nat) : String :=
  slugifyP2 title ++ "-" ++ toString d

/-- The slugify of src/seed/seed.js line 15: every single non-`[a-z0-9]`
character (no run collapsing, no stripping) becomes a dash, then the
disambiguator is appended. -/
def seedSlugify (title : String) (d : Nat) : String :=
  ⟨(title.data.map Char.toLower).map fun c => if isLowerAlnum c then c else '-'⟩
    ++ "-" ++ toString d

/-! ### SQL LIKE

SQLite LIKE semantics with its defaults (no ESCAPE clause, `case_sensitive_like`
off): `'%'` matches any sequence, `'_'` matches one character, anything else
matches itself up to ASCII case folding (SQLite folds only A-Z). Lean's
`Char.toLower` performs exactly the ASCII fold. -/

/-- Helper for the `'%'` wildcard: try the continuation on every suffix of the
string. Structural on the string, so concrete instances compute. -/
def likeTail (f : List Char → Bool) : List Char → Bool
  | [] => f []
  | c :: cs => f (c :: cs) || likeTail f cs

/-- SQLite LIKE pattern matching, pattern first, subject second. -/
def likeMatch : List Char → List Char → Bool
  | [], s => s.isEmpty
  | '%' :: ps, s => likeTail (likeMatch ps) s
  | '_' :: ps, s =>
    match s with
    | [] => false
    | _ :: cs => likeMatch ps cs
  | p :: ps, s =>
    match s with
    | [] => false
    | c :: cs => (Char.toLower p == Char.toLower c) && likeMatch ps cs

/-- `subject LIKE pattern` on strings. -/
def sqlLike (pattern subject : String) : Bool :=
  likeMatch pattern.data subject.data

/-- `column LIKE pattern` for a nullable column: NULL never matches. -/
def sqlLikeOpt (pattern : String) : Option String → Bool
  | some s => sqlLike pattern s
  | none => false

/-- `column = value` for a nullable text column: NULL never matches. -/
def sqlEqOpt (v : String) : Option String → Bool
  | some s => s == v
  | none => false

/-! ### Filter composer (/inventario) -/

/-- The optional query-string criteria destructured by every /inventario
variant (server.js lines 75 and 256, part_002 line 118). `none` stands for an
absent or empty (falsy) parameter; numeric criteria carry their `parseInt`
value. -/
structure Filters where
  term : Option String
  ciudad : Option String
  min : Option Int
  max : Option Int
  year : Option Int
  repuve : Option String
  insurance : Option String
deriving DecidableEq

/-- No criteria supplied. -/
def noFilters : Filters :=
  { term := none, ciudad := none, min := none, max := none, year := none,
    repuve := none, insurance := none }

/-- JS truthiness of an optional string form value: absent or empty is falsy. -/
def active : Option String → Option String
  | some s => if s == "" then none else some s
  | none => none

/-- The WHERE clause built by variant A (server.js lines 83-89), as a row
predicate: term on title/description, city/repuve/insurance equality without
enum checking, price range, year exact equality. -/
def matchesA (f : Filters) (c : Car) : Bool :=
  (match active f.term with
   | some t => sqlLike ("%" ++ t ++ "%") c.title || sqlLikeOpt ("%" ++ t ++ "%") c.description
   | none => true) &&
  (match active f.ciudad with
   | some s => c.city == s
   | none => true) &&
  (match f.min with
   | some m => m ≤ c.price
   | none => true) &&
  (match f.max with
   | some m => c.price ≤ m
   | none => true) &&
  (match f.year with
   | some y => c.year == y
   | none => true) &&
  (match active f.repuve with
   | some r => sqlEqOpt r c.repuve_status
   | none => true) &&
  (match active f.insurance with
   | some i => sqlEqOpt i c.insurance_status
   | none => true)

/-- The WHERE clause built by variant B (server.js lines 261-267): city,
repuve and insurance are enum-checked before being added, and the year clause
is `c.year >= ?`. -/
def matchesB (f : Filters) (c : Car) : Bool :=
  (match active f.term with
   | some t => sqlLike ("%" ++ t ++ "%") c.title || sqlLikeOpt ("%" ++ t ++ "%") c.description
   | none => true) &&
  (match active f.ciudad with
   | some s => if cities.contains s then c.city == s else true
   | none => true) &&
  (match f.min with
   | some m => m ≤ c.price
   | none => true) &&
  (match f.max with
   | some m => c.price ≤ m
   | none => true) &&
  (match f.year with
   | some y => y ≤ c.year
   | none => true) &&
  (match active f.repuve with
   | some r => if repuveValues.contains r then sqlEqOpt r c.repuve_status else true
   | none => true) &&
  (match active f.insurance with
   | some i => if insuranceValues.contains i then sqlEqOpt i c.insurance_status else true
   | none => true)

/-- The WHERE clause built by part_002 (lines 128-145): the term must also be
non-blank after trim and is matched against title, description and vin; year
is exact equality; city/repuve/insurance are enum-checked. -/
def matchesP2 (f : Filters) (c : Car) : Bool :=
  (match active f.term with
   | some t =>
     if jsTrim t == "" then true
     else sqlLike ("%" ++ t ++ "%") c.title || sqlLikeOpt ("%" ++ t ++ "%") c.description ||
       sqlLikeOpt ("%" ++ t ++ "%") c.vin
   | none => true) &&
  (match active f.ciudad with
   | some s => if s == "Ciudad de Mexico" || s == "Estado de Mexico" then c.city == s else true
   | none => true) &&
  (match f.min with
   | some m => m ≤ c.price
   | none => true) &&
  (match f.max with
   | some m => c.price ≤ m
   | none => true) &&
  (match f.year with
   | some y => c.year == y
   | none => true) &&
  (match active f.repuve with
   | some r => if repuveValues.contains r then sqlEqOpt r c.repuve_status else true
   | none => true) &&
  (match active f.insurance with
   | some i => if insuranceValues.contains i then sqlEqOpt i c.insurance_status else true
   | none => true)

/-- The relation of `ORDER BY c.created_at DESC`: newest first. -/
def newerFirst (a b : Car) : Prop := b.created_at ≤ a.created_at

instance : DecidableRel newerFirst := fun a b => Nat.decLe b.created_at a.created_at

instance : IsTotal Car newerFirst := ⟨fun a b => Nat.le_total b.created_at a.created_at⟩

instance : IsTrans Car newerFirst := ⟨fun _ _ _ h1 h2 => Nat.le_trans h2 h1⟩

/-- `ORDER BY c.created_at DESC`: a deterministic sorted permutation of the
matching rows (SQLite promises no particular tie order; only sortedness and
the row multiset are observable contract). -/
def orderByCreatedAtDesc (l : List Car) : List Car :=
  l.insertionSort newerFirst

/-- GET /inventario of variant A (server.js lines 74-95). -/
def inventarioQueryA (f : Filters) (rows : List Car) : List Car :=
  orderByCreatedAtDesc (rows.filter (matchesA f))

/-- GET /inventario of variant B (server.js lines 255-271). -/
def inventarioQueryB (f : Filters) (rows : List Car) : List Car :=
  orderByCreatedAtDesc (rows.filter (matchesB f))

/-- GET /inventario of part_002 (lines 117-151). -/
def inventarioQueryP2 (f : Filters) (rows : List Car) : List Car :=
  orderByCreatedAtDesc (rows.filter (matchesP2 f))

/-! ### Listing lifecycle (admin mutations) -/

/-- Modelled from the spec: the npm `slugify` dependency (not under src/) used
by server.js lines 131 and 305. Spec section 4.2 gives its algorithm as:
lower-case, collapse each run of non-alphanumerics to one dash, strip edge
dashes; this is the same pipeline as the inline slugify of part_002. No claim
depends on its exact output. -/
def npmSlugify (s : String) : String :=
  slugifyP2 s

/-- Filename sanitizer of variant A (server.js line 142): characters outside
`[a-zA-Z0-9._-]` are removed (replaced with the empty string). -/
def sanitizeA (name : String) : String :=
  ⟨name.data.filter isSafeFileChar⟩

/-- Filename sanitizer of variant B (server.js lines 315 and 343): characters
outside `[a-zA-Z0-9._-]` are replaced with an underscore. -/
def sanitizeB (name : String) : String :=
  ⟨name.data.map fun c => if isSafeFileChar c then c else '_'⟩

/-- Filename sanitizer of part_002 (line 226). The regex written in the source
is syntactically malformed (its character class is never closed); we model the
evident intent, which is variant A's sanitizer followed by a whitespace
replacement that can never fire because whitespace is already removed. -/
def sanitizeP2 (name : String) : String :=
  ⟨name.data.filter isSafeFileChar⟩

/-- One iteration of the photo upload loop: persist the file under its
timestamped sanitized name and insert the images row (server.js lines
142-145 and 315-318). `store` builds the stored artifact name, `record` the
value of the `filename` column (part_002 records `/uploads/` + name). -/
def savePhoto (carId : Nat) (store record : String) (db : DB) : DB :=
  { db with
    files := db.files ++ [store],
    images := db.images ++ [⟨db.nextImageId, carId, record⟩],
    nextImageId := db.nextImageId + 1 }

/-- The photo upload loop of variant B (server.js lines 313-319), run over an
already-capped file list. -/
def savePhotosB (carId : Nat) (now : Nat) (names : List String) (db : DB) : DB :=
  names.foldl
    (fun db n =>
      let safe := toString now ++ "-" ++ sanitizeB n
      savePhoto carId safe safe db)
    db

/-- The photo upload loop of variant A (server.js lines 140-146): no cap. -/
def savePhotosA (carId : Nat) (now : Nat) (names : List String) (db : DB) : DB :=
  names.foldl
    (fun db n =>
      let safe := toString now ++ "-" ++ sanitizeA n
      savePhoto carId safe safe db)
    db

/-- The photo upload loop of part_002 (lines 224-230): the stored file is the
sanitized name, the recorded filename is prefixed with `/uploads/`. -/
def savePhotosP2 (carId : Nat) (now : Nat) (names : List String) (db : DB) : DB :=
  names.foldl
    (fun db n =>
      let safe := toString now ++ "-" ++ sanitizeP2 n
      savePhoto carId safe ("/uploads/" ++ safe) db)
    db

/-- Whether better-sqlite3 can bind every raw-bound optional text field of
variant B's INSERT/UPDATE parameter list (server.js lines 308 and 337):
`description`, `repuve_status`, `insurance_status`, `title_type` and
`notes_history` are passed through unmodified, so an absent form field is
`undefined`, which the driver rejects with a TypeError before the statement
runs; a present field is a string and binds. -/
def bindOkB (p : Payload) : Bool :=
  p.description.isSome && p.repuve_status.isSome && p.insurance_status.isSome &&
  p.title_type.isSome && p.notes_history.isSome

/-- Whether the bound enum values satisfy the schema CHECK constraints
(server.js lines 210-212) when a row is actually written: a string value must
be an enum member (a form never produces SQL NULL, the one value the CHECKs
would wave through). -/
def checkOkB (p : Payload) : Bool :=
  (match p.repuve_status with
   | some v => repuveValues.contains v
   | none => true) &&
  (match p.insurance_status with
   | some v => insuranceValues.contains v
   | none => true) &&
  (match p.title_type with
   | some v => titleTypeValues.contains v
   | none => true)

/-- Whether part_002's INSERT (lines 209-218) passes its CHECK constraints:
the `||` defaults make every parameter bindable and replace absent or empty
enum fields, but a non-empty out-of-enum value reaches the CHECKed column and
makes the INSERT throw. -/
def enumFieldsOkP2 (p : Payload) : Bool :=
  repuveValues.contains (defaultIfEmpty p.repuve_status "No verificado") &&
  insuranceValues.contains (defaultIfEmpty p.insurance_status "Normal") &&
  titleTypeValues.contains (defaultIfEmpty p.title_type "Factura original")

/-- Whether variant B's UPDATE statement (server.js lines 336-338) throws: a
bind failure throws regardless, while a CHECK violation fires only when the
WHERE clause matches a row to rewrite (an unknown id updates zero rows and
succeeds). -/
def updateThrows (id : Nat) (p : Payload) (db : DB) : Bool :=
  !bindOkB p || ((db.cars.any fun c => c.id == id) && !checkOkB p)

/-- Modelled from the spec: the storage engine's error message for a failed
bind or constraint violation comes from the better-sqlite3 dependency (not
under src/); section 7 only requires the error to be surfaced, and no claim
depends on the wording the routes interpolate after their catch prefix. -/
def storageErrorMessage : String := "CHECK constraint failed"

/-- POST /admin/nuevo of variant B (server.js lines 300-323): reject an
out-of-enum city with 400 before any write; a payload the INSERT cannot bind
or that violates a schema CHECK makes the statement throw, and the catch
answers 500 with nothing written; otherwise insert the car (the INSERT names
no `is_sold` column, so the schema default 0 applies) and then persist at
most the first 10 uploaded files. Slug-uniqueness collisions (the same title,
year and millisecond) are outside the modelled states. -/
def createB (p : Payload) (files : List String) (now : Nat) (db : DB) : Outcome × DB :=
  if !cities.contains p.city then (.status 400 "Ciudad invalida", db)
  else if !(bindOkB p && checkOkB p) then
    (.status 500 ("Error al crear: " ++ storageErrorMessage), db)
  else
    let slug := npmSlugify (p.title ++ "-" ++ toString p.year ++ "-" ++ toString now)
    let car : Car :=
      { id := db.nextCarId, title := p.title, price := p.price, year := p.year,
        mileage := p.mileage, city := p.city, description := p.description,
        vin := nullifyEmpty p.vin, owners := p.owners,
        repuve_status := p.repuve_status, insurance_status := p.insurance_status,
        title_type := p.title_type, notes_history := p.notes_history,
        slug := slug, is_sold := false, created_at := now }
    let db1 := { db with cars := db.cars ++ [car], nextCarId := db.nextCarId + 1 }
    (.redirect "/admin", savePhotosB car.id now (files.take 10) db1)

/-- POST /admin/nuevo of variant A (server.js lines 128-153). The route has no
application-level city check; the INSERT hits the schema CHECK constraint
`city IN (...)` (declared by the schema every variant and seed shares, e.g.
server.js line 206), better-sqlite3 throws, and the catch block answers a
generic 500 with nothing written. On a valid city the columns absent from the
INSERT take their schema defaults. The file loop has no cap and its sanitizer
deletes (rather than replaces) unsafe characters. -/
def createA (p : Payload) (files : List String) (now : Nat) (db : DB) : Outcome × DB :=
  if !cities.contains p.city then (.status 500 "Error al crear auto", db)
  else
    let slug := npmSlugify (p.title ++ "-" ++ toString now)
    let car : Car :=
      { id := db.nextCarId, title := p.title, price := p.price, year := p.year,
        mileage := p.mileage, city := p.city, description := p.description,
        vin := none, owners := none,
        repuve_status := some "No verificado", insurance_status := some "Normal",
        title_type := some "Factura original", notes_history := none,
        slug := slug, is_sold := false, created_at := now }
    let db1 := { db with cars := db.cars ++ [car], nextCarId := db.nextCarId + 1 }
    (.redirect "/admin", savePhotosA car.id now files db1)

/-- POST /admin/nuevo of part_002 (lines 195-238): explicit 400 on an invalid
city; a non-empty out-of-enum provenance field survives the `||` default and
makes the CHECKed INSERT throw, answered as 500 with nothing written;
otherwise the slug comes from the inline slugify, the INSERT applies the `||`
defaults and the literal 0 for `is_sold`, at most 10 files are persisted, and
the route redirects to the new detail page. -/
def createP2 (p : Payload) (files : List String) (now : Nat) (db : DB) : Outcome × DB :=
  if !cities.contains p.city then (.status 400 "Ciudad inválida", db)
  else if !enumFieldsOkP2 p then
    (.status 500 ("Error al crear: " ++ storageErrorMessage), db)
  else
    let slug := makeSlug p.title now
    let car : Car :=
      { id := db.nextCarId, title := p.title, price := p.price, year := p.year,
        mileage := p.mileage, city := p.city, description := nullifyEmpty p.description,
        vin := nullifyEmpty p.vin, owners := p.owners,
        repuve_status := some (defaultIfEmpty p.repuve_status "No verificado"),
        insurance_status := some (defaultIfEmpty p.insurance_status "Normal"),
        title_type := some (defaultIfEmpty p.title_type "Factura original"),
        notes_history := nullifyEmpty p.notes_history,
        slug := slug, is_sold := false, created_at := now }
    let db1 := { db with cars := db.cars ++ [car], nextCarId := db.nextCarId + 1 }
    (.redirect ("/auto/" ++ slug), savePhotosP2 car.id now (files.take 10) db1)

/-- POST /admin/editar/:id of variant B (server.js lines 331-351): reject an
invalid city with 400; a payload the UPDATE cannot bind — or one whose enum
fields violate a CHECK while a row with that id exists to be rewritten —
makes the statement throw, answered as 500 with neither the update nor any
photo written; otherwise overwrite every mutable column of the row with the
given id (slug and created_at are not in the UPDATE), including `is_sold`
from the form, then persist at most 10 new files against the route id (the
UPDATE silently matches zero rows for an unknown id, and the photo inserts
still run against that id). -/
def updateB (id : Nat) (p : Payload) (files : List String) (now : Nat) (db : DB) : Outcome × DB :=
  if !cities.contains p.city then (.status 400 "Ciudad invalida", db)
  else if updateThrows id p db then
    (.status 500 ("Error al actualizar: " ++ storageErrorMessage), db)
  else
    let cars := db.cars.map fun c =>
      if c.id == id then
        { c with
          title := p.title, price := p.price, year := p.year,
          mileage := p.mileage, city := p.city, description := p.description,
          vin := nullifyEmpty p.vin, owners := p.owners,
          repuve_status := p.repuve_status, insurance_status := p.insurance_status,
          title_type := p.title_type, notes_history := p.notes_history,
          is_sold := p.is_sold }
      else c
    (.redirect "/admin", savePhotosB id now (files.take 10) { db with cars := cars })

/-- POST /admin/eliminar/:id of variant A (server.js lines 156-160): two
explicit DELETE statements, cars first, then the images of that car. -/
def deleteCarA (id : Nat) (db : DB) : Outcome × DB :=
  (.redirect "/admin",
    { db with
      cars := db.cars.filter fun c => !(c.id == id),
      images := db.images.filter fun i => !(i.car_id == id) })

/-- POST /admin/eliminar/:id of variant B (server.js lines 362-365): a single
DELETE on cars. The schema declares `ON DELETE CASCADE` on images.car_id
(line 220), but the server connection never executes `PRAGMA foreign_keys =
ON` (the db.exec at lines 199-223 has no pragma) and SQLite leaves foreign
keys off by default, so the cascade does not fire and the images rows stay. -/
def deleteCarB (id : Nat) (db : DB) : Outcome × DB :=
  (.redirect "/admin",
    { db with cars := db.cars.filter fun c => !(c.id == id) })

/-- POST /admin/eliminar-foto/:imageId (server.js lines 353-361): look the
image up; when found, try to unlink the stored file (`fileOk` tells whether
the unlink succeeds; the empty catch swallows a failure) and delete the row;
either way answer a redirect to the referrer. -/
def detachPhoto (imageId : Nat) (fileOk : Bool) (db : DB) : Outcome × DB :=
  match db.images.find? (fun i => i.id == imageId) with
  | some img =>
    (.redirect "back",
      { db with
        files := if fileOk then db.files.erase img.filename else db.files,
        images := db.images.filter fun i => !(i.id == img.id) })
  | none => (.redirect "back", db)

/-! ### Outbound contact link formatter -/

/-- ASCII upper-casing of a whole string, the model of JS `toUpperCase` on the
ASCII vehicle identification strings involved here. -/
def toUpperStr (s : String) : String :=
  ⟨s.data.map Char.toUpper⟩

/-- JS `slice(-6)`: the last six characters, or the whole string when it is
shorter. -/
def sliceLast6 (s : String) : String :=
  ⟨s.data.drop (s.data.length - 6)⟩

/-- Upper-case hexadecimal digit, as produced by JS percent-encoding. -/
def hexDigitUpper (n : Nat) : Char :=
  if n < 10 then Char.ofNat (48 + n) else Char.ofNat (55 + n)

/-- UTF-8 bytes of a code point. -/
def utf8Bytes (n : Nat) : List Nat :=
  if n < 128 then [n]
  else if n < 2048 then [192 + n / 64, 128 + n % 64]
  else if n < 65536 then [224 + n / 4096, 128 + n / 64 % 64, 128 + n % 64]
  else [240 + n / 262144, 128 + n / 4096 % 64, 128 + n / 64 % 64, 128 + n % 64]

/-- A percent-encoded byte, e.g. 32 becomes %20. -/
def pctEncodeByte (b : Nat) : List Char :=
  ['%', hexDigitUpper (b / 16), hexDigitUpper (b % 16)]

/-- The characters JS `encodeURIComponent` leaves unescaped: ASCII letters and
digits plus - _ . ! ~ * apostrophe ( ) (listed by code point). -/
def isUnreservedURI (c : Char) : Bool :=
  c.isAlpha || c.isDigit || [45, 95, 46, 33, 126, 42, 39, 40, 41].contains c.toNat

/-- JS `encodeURIComponent`: unreserved characters stay, every other character
is replaced by the percent-encoding of its UTF-8 bytes. -/
def encodeURIComponent (s : String) : String :=
  ⟨(s.data.map fun c =>
      if isUnreservedURI c then [c] else ((utf8Bytes c.toNat).map pctEncodeByte).flatten).flatten⟩

/-- The prefilled-message link of variant A (server.js line 103): raw text
interpolation, no percent-encoding, no vin, built even when the configured
phone is empty. -/
def waLinkA (car : Car) (phone : String) : String :=
  "https://wa.me/" ++ phone ++ "?text=Hola, me interesa el " ++ car.title ++
    " (" ++ toString car.year ++ ")"

/-- The last-six-of-vin fragment of variant B (server.js line 277):
`car.vin ? car.vin.trim().toUpperCase().slice(-6) : ''`. -/
def vin6B (car : Car) : String :=
  match car.vin with
  | some v => if v == "" then "" else sliceLast6 (toUpperStr (jsTrim v))
  | none => ""

/-- The prefilled message of variant B (server.js line 279). -/
def waMsgB (car : Car) (fullUrl : String) : String :=
  "Hola, me interesa el " ++ car.title ++ " (" ++ toString car.year ++ ")" ++
    (if vin6B car == "" then "" else " — VIN " ++ vin6B car) ++
    " que vi en Space Motors: " ++ fullUrl

/-- The contact link of variant B (server.js lines 277-280): always a wa.me
URL, even when no phone is configured. -/
def waLinkB (car : Car) (phone fullUrl : String) : String :=
  "https://wa.me/" ++ phone ++ "?text=" ++ encodeURIComponent (waMsgB car fullUrl)

/-- The last-six-of-vin fragment of part_002 (line 160):
`(car.vin || '').toUpperCase().slice(-6)`. -/
def vin6P2 (car : Car) : String :=
  sliceLast6 (toUpperStr (car.vin.getD ""))

/-- The prefilled message of part_002 (line 162); the fullUrl computed on line
161 is not part of the message. -/
def waMsgP2 (car : Car) : String :=
  "Hola, me interesa el " ++ car.title ++ " " ++ toString car.year ++
    " (VIN • " ++ vin6P2 car ++ ")"

/-- The contact link of part_002 (line 163): a wa.me URL with the
percent-encoded message when a phone is configured, the disabled href value
`#` otherwise. -/
def waLinkP2 (car : Car) (phone : String) : String :=
  if phone == "" then "#"
  else "https://wa.me/" ++ phone ++ "?text=" ++ encodeURIComponent (waMsgP2 car)

/-! ### Concrete fixtures for counterexamples and witnesses -/

/-- The seeded Mazda 3 listing (src/seed/main-seed.js lines 65-85). -/
def mazda : Car :=
  { id := 1, title := "Mazda 3 i Touring", price := 158000, year := 2017,
    mileage := 78500, city := "Ciudad de Mexico",
    description := some "Muy cuidado, servicios al día",
    vin := some "JM1BN123456789000", owners := some 1,
    repuve_status := some "Limpio", insurance_status := some "Normal",
    title_type := some "Factura original",
    notes_history := some "Sin observaciones",
    slug := "mazda-3-i-touring-1700000000000", is_sold := false,
    created_at := 100 }

/-- A later listing from a later model year, for the year-filter claims. -/
def carY2020 : Car :=
  { mazda with id := 2, title := "Honda Civic", year := 2020, slug := "honda-civic-1", created_at := 200 }

/-- The create payload of the spec scenario, with an is_sold field the create
routes must ignore. -/
def mazdaPayload : Payload :=
  { title := "Mazda 3 i Touring", price := 158000, year := 2017, mileage := 78500,
    city := "Ciudad de Mexico", description := some "Muy cuidado, servicios al día",
    vin := some "JM1BN123456789000", owners := some 1,
    repuve_status := some "Limpio", insurance_status := some "Normal",
    title_type := some "Factura original", notes_history := some "Sin observaciones",
    is_sold := true }

/-- A payload whose city is outside the enum. -/
def invalidCityPayload : Payload :=
  { mazdaPayload with city := "Invalid City" }

/-- The empty database. -/
def emptyDB : DB :=
  { cars := [], images := [], nextCarId := 1, nextImageId := 1, files := [] }

/-- A database holding one listing with one photo. -/
def dbOnePhoto : DB :=
  { cars := [mazda], images := [⟨1, 1, "1700000000000-mazda.jpg"⟩],
    nextCarId := 2, nextImageId := 2, files := ["1700000000000-mazda.jpg"] }

/-- Twelve upload file names, for the photo-cap claims. -/
def twelveFiles : List String :=
  ["f01.jpg", "f02.jpg", "f03.jpg", "f04.jpg", "f05.jpg", "f06.jpg",
   "f07.jpg", "f08.jpg", "f09.jpg", "f10.jpg", "f11.jpg", "f12.jpg"]

/-- A naive literal substring search, to state that a term is not a literal
substring of a field yet the LIKE clause matches. -/
def isPrefixList : List Char → List Char → Bool
  | [], _ => true
  | _ :: _, [] => false
  | a :: as, b :: bs => (a == b) && isPrefixList as bs

/-- Whether `sub` occurs literally (case-sensitively) inside the second list. -/
def containsSub (sub : List Char) : List Char → Bool
  | [] => sub.isEmpty
  | c :: cs => isPrefixList sub (c :: cs) || containsSub sub cs

/-- The free-text criterion consisting of the single character `%`. -/
def termPctFilters : Filters :=
  { noFilters with term := some "%" }

/-- The year-only criterion. -/
def yearFilter (y : Int) : Filters :=
  { noFilters with year := some y }

/-- The mazda payload with the form's is_sold box ticked. -/
def soldPayload : Payload :=
  { mazdaPayload with is_sold := true }

/-- The listing row produced by variant B's create from the sold payload. -/
def createdCar7 : Car :=
  ((createB soldPayload [] 7 emptyDB).2.cars).headD mazda

/-- The listing row produced by variant B's update of the seeded listing with
the sold payload. -/
def updatedCar8 : Car :=
  ((updateB 1 soldPayload [] 8 dbOnePhoto).2.cars).headD mazda

/-! ### Slug generator lemmas -/

/-- Whether, after scanning the given characters from the given run state, the
scan ends inside a run of non-`[a-z0-9]` characters. -/
def endsInRun (b : Bool) : List Char → Bool
  | [] => b
  | c :: cs => endsInRun (!isLowerAlnum c) cs

/-- A character that is both in `[a-z0-9]` and a fixed point of ASCII
lower-casing; all decimal digits qualify. -/
def goodTailChar (c : Char) : Prop :=
  isLowerAlnum c = true ∧ Char.toLower c = c

instance (c : Char) : Decidable (goodTailChar c) := by
  unfold goodTailChar; infer_instance

theorem collapseAux_all_alnum (D : List Char) (hD : ∀ c ∈ D, isLowerAlnum c = true) :
    ∀ b, collapseAux b D = D := by
  induction D with
  | nil => intro b; rfl
  | cons c cs ih =>
    intro b
    have hc : isLowerAlnum c = true := hD c (List.mem_cons_self ..)
    have ihcs := ih (fun x hx => hD x (List.mem_cons_of_mem _ hx))
    simp [collapseAux, hc, ihcs]

theorem collapseAux_append_dash_alnum (D : List Char) (hD : ∀ c ∈ D, isLowerAlnum c = true) :
    ∀ (L : List Char) (b : Bool),
      collapseAux b (L ++ '-' :: D) = collapseAux b (L ++ ['-']) ++ D := by
  intro L
  induction L with
  | nil =>
    intro b
    have hdash : isLowerAlnum '-' = false := by decide
    cases b <;> simp [collapseAux, hdash, collapseAux_all_alnum D hD]
  | cons c cs ih =>
    intro b
    by_cases hc : isLowerAlnum c = true
    · simp [collapseAux, hc, ih]
    · have hc' : isLowerAlnum c = false := by
        cases h : isLowerAlnum c
        · rfl
        · exact absurd h hc
      cases b <;> simp [collapseAux, hc', ih]

theorem collapseAux_append_dash (L : List Char) :
    ∀ b, collapseAux b (L ++ ['-']) =
      collapseAux b L ++ (if endsInRun b L then [] else ['-']) := by
  induction L with
  | nil =>
    intro b
    have hdash : isLowerAlnum '-' = false := by decide
    cases b <;> simp [collapseAux, endsInRun, hdash]
  | cons c cs ih =>
    intro b
    by_cases hc : isLowerAlnum c = true
    · simp [collapseAux, endsInRun, hc, ih]
    · have hc' : isLowerAlnum c = false := by
        cases h : isLowerAlnum c
        · rfl
        · exact absurd h hc
      cases b <;> simp [collapseAux, endsInRun, hc', ih]

theorem getLast?_cons_of_ne_nil {α : Type} (x : α) {l : List α} (h : l ≠ []) :
    (x :: l).getLast? = l.getLast? := by
  cases l with
  | nil => exact absurd rfl h
  | cons y ys => exact List.getLast?_cons_cons

theorem collapseAux_ne_nil_getLast (cs : List Char) :
    ∀ b e, (collapseAux b cs).getLast? = some e →
      ∀ b2, (b2 = false ∨ b2 = b) → ∃ x l, collapseAux b2 cs = x :: l := by
  induction cs with
  | nil =>
    intro b e he b2 _
    simp [collapseAux] at he
  | cons c cs ih =>
    intro b e he b2 hb2
    by_cases hc : isLowerAlnum c = true
    · exact ⟨c, collapseAux false cs, by simp [collapseAux, hc]⟩
    · have hc' : isLowerAlnum c = false := by
        cases h : isLowerAlnum c
        · rfl
        · exact absurd h hc
      rcases hb2 with h2 | h2
      · subst h2
        exact ⟨'-', collapseAux true cs, by simp [collapseAux, hc']⟩
      · subst h2
        cases b2 with
        | false => exact ⟨'-', collapseAux true cs, by simp [collapseAux, hc']⟩
        | true =>
          rw [show collapseAux true (c :: cs) = collapseAux true cs from by
            simp [collapseAux, hc']] at he ⊢
          exact ih true e he true (Or.inr rfl)

theorem collapseAux_getLast_of_not_run (L : List Char) :
    ∀ b, endsInRun b L = false → L ≠ [] →
      ∃ c, isLowerAlnum c = true ∧ (collapseAux b L).getLast? = some c := by
  induction L with
  | nil => intro b _ h; exact absurd rfl h
  | cons c cs ih =>
    intro b hrun _
    have hrun' : endsInRun (!isLowerAlnum c) cs = false := hrun
    by_cases hcs : cs = []
    · subst hcs
      have hc : isLowerAlnum c = true := by
        have h1 : (!isLowerAlnum c) = false := hrun'
        simpa using h1
      exact ⟨c, hc, by simp [collapseAux, hc]⟩
    · obtain ⟨e, he, hlast⟩ := ih (!isLowerAlnum c) hrun' hcs
      refine ⟨e, he, ?_⟩
      by_cases hc : isLowerAlnum c = true
      · have hc2 : (!isLowerAlnum c) = false := by simp [hc]
        rw [hc2] at hlast
        obtain ⟨x, l, hxl⟩ :=
          collapseAux_ne_nil_getLast cs false e hlast false (Or.inl rfl)
        rw [show collapseAux b (c :: cs) = c :: collapseAux false cs from by
          simp [collapseAux, hc]]
        rw [getLast?_cons_of_ne_nil c (by simp [hxl])]
        exact hlast
      · have hc' : isLowerAlnum c = false := by
          cases h : isLowerAlnum c
          · rfl
          · exact absurd h hc
        have hc2 : (!isLowerAlnum c) = true := by simp [hc']
        rw [hc2] at hlast
        cases b with
        | true =>
          rw [show collapseAux true (c :: cs) = collapseAux true cs from by
            simp [collapseAux, hc']]
          exact hlast
        | false =>
          obtain ⟨x, l, hxl⟩ :=
            collapseAux_ne_nil_getLast cs true e hlast true (Or.inr rfl)
          rw [show collapseAux false (c :: cs) = '-' :: collapseAux true cs from by
            simp [collapseAux, hc']]
          rw [getLast?_cons_of_ne_nil _ (by simp [hxl])]
          exact hlast

theorem collapseAux_getLast_of_run (L : List Char) :
    ∀ b, endsInRun b L = true →
      collapseAux b L = [] ∨ (collapseAux b L).getLast? = some '-' := by
  induction L with
  | nil =>
    intro b _
    left
    rfl
  | cons c cs ih =>
    intro b hrun
    have hrun' : endsInRun (!isLowerAlnum c) cs = true := hrun
    by_cases hc : isLowerAlnum c = true
    · -- head emits itself; the tail must produce a dash-terminated collapse,
      -- because a run-final scan of a nonempty remainder cannot collapse to
      -- nothing from state false
      have hc2 : (!isLowerAlnum c) = false := by simp [hc]
      rw [hc2] at hrun'
      rcases ih false hrun' with hnil | hlast
      · exfalso
        by_cases hcs : cs = []
        · subst hcs; simp [endsInRun] at hrun'
        · obtain ⟨d, ds, hds⟩ := List.exists_cons_of_ne_nil hcs
          subst hds
          by_cases hd : isLowerAlnum d = true
          · simp [collapseAux, hd] at hnil
          · have hd' : isLowerAlnum d = false := by
              cases h : isLowerAlnum d
              · rfl
              · exact absurd h hd
            simp [collapseAux, hd'] at hnil
      · right
        obtain ⟨x, l, hxl⟩ :=
          collapseAux_ne_nil_getLast cs false '-' hlast false (Or.inl rfl)
        rw [show collapseAux b (c :: cs) = c :: collapseAux false cs from by
          simp [collapseAux, hc]]
        rw [getLast?_cons_of_ne_nil c (by simp [hxl])]
        exact hlast
    · have hc' : isLowerAlnum c = false := by
        cases h : isLowerAlnum c
        · rfl
        · exact absurd h hc
      have hc2 : (!isLowerAlnum c) = true := by simp [hc']
      rw [hc2] at hrun'
      rcases ih true hrun' with hnil | hlast
      · cases b with
        | true =>
          left
          rw [show collapseAux true (c :: cs) = collapseAux true cs from by
            simp [collapseAux, hc']]
          exact hnil
        | false =>
          right
          rw [show collapseAux false (c :: cs) = '-' :: collapseAux true cs from by
            simp [collapseAux, hc']]
          rw [hnil]
          rfl
      · have hne : collapseAux true cs ≠ [] := by
          intro hn
          rw [hn] at hlast
          simp at hlast
        cases b with
        | true =>
          right
          rw [show collapseAux true (c :: cs) = collapseAux true cs from by
            simp [collapseAux, hc']]
          exact hlast
        | false =>
          right
          rw [show collapseAux false (c :: cs) = '-' :: collapseAux true cs from by
            simp [collapseAux, hc']]
          rw [getLast?_cons_of_ne_nil _ hne]
          exact hlast

theorem stripLeadDash_append {L : List Char} (M : List Char) (h : L ≠ []) :
    stripLeadDash (L ++ M) = stripLeadDash L ++ M := by
  cases L with
  | nil => exact absurd rfl h
  | cons c cs => cases hc : (c == '-') <;> simp [stripLeadDash, hc]

theorem stripTrailDash_of_getLast_not_dash {xs : List Char} {c : Char}
    (h : xs.getLast? = some c) (hc : c ≠ '-') : stripTrailDash xs = xs := by
  unfold stripTrailDash
  have hh : xs.reverse.head? = some c := by rw [List.head?_reverse]; exact h
  cases hr : xs.reverse with
  | nil => rw [hr] at hh; simp at hh
  | cons y ys =>
    rw [hr] at hh
    have hy : y = c := by simpa using hh
    subst hy
    have hbeq : (y == '-') = false := by
      cases hb : (y == '-')
      · rfl
      · exact absurd (by simpa using hb) hc
    have hxs : xs = ys.reverse ++ [y] := by
      have h2 := congrArg List.reverse hr
      simpa using h2
    simp [stripLeadDash, hbeq, hxs]

theorem stripTrailDash_of_getLast_dash {xs : List Char}
    (h : xs.getLast? = some '-') :
    ∃ ys, xs = ys ++ ['-'] ∧ stripTrailDash xs = ys := by
  have hh : xs.reverse.head? = some '-' := by rw [List.head?_reverse]; exact h
  cases hr : xs.reverse with
  | nil => rw [hr] at hh; simp at hh
  | cons y ys =>
    rw [hr] at hh
    have hy : y = '-' := by simpa using hh
    subst hy
    have hxs : xs = ys.reverse ++ ['-'] := by
      have h2 := congrArg List.reverse hr
      simpa using h2
    refine ⟨ys.reverse, hxs, ?_⟩
    unfold stripTrailDash
    rw [hr]
    simp [stripLeadDash]

theorem stripLeadDash_getLast {C : List Char} {c : Char}
    (h : C.getLast? = some c) (hc : c ≠ '-') :
    stripLeadDash C ≠ [] ∧ (stripLeadDash C).getLast? = some c := by
  cases C with
  | nil => simp at h
  | cons c0 cs =>
    cases hc0 : (c0 == '-') with
    | false => exact ⟨by simp [stripLeadDash, hc0], by simpa [stripLeadDash, hc0] using h⟩
    | true =>
      have hc0' : c0 = '-' := by simpa using hc0
      by_cases hcs : cs = []
      · subst hcs
        simp [hc0'] at h
        exact absurd h.symm hc
      · constructor
        · simp [stripLeadDash, hc0, hcs]
        · rw [getLast?_cons_of_ne_nil c0 hcs] at h
          simpa [stripLeadDash, hc0] using h

theorem stripLeadDash_getLast_dash {C : List Char}
    (h : C.getLast? = some '-') (hne : stripLeadDash C ≠ []) :
    (stripLeadDash C).getLast? = some '-' := by
  cases C with
  | nil => simp at h
  | cons c0 cs =>
    cases hc0 : (c0 == '-') with
    | false => simpa [stripLeadDash, hc0] using h
    | true =>
      have hcs : cs ≠ [] := by
        intro hnil
        rw [hnil] at hne
        simp [stripLeadDash, hc0] at hne
      rw [getLast?_cons_of_ne_nil c0 hcs] at h
      simpa [stripLeadDash, hc0] using h

/-! ### Decimal rendering lemmas: every character of `toString (d : Nat)` is a
digit, hence in `[a-z0-9]` and fixed by lower-casing. -/

theorem digitChar_good (m : Nat) (h : m < 10) : goodTailChar (Nat.digitChar m) := by
  interval_cases m <;> decide

theorem toDigitsCore_good :
    ∀ (fuel n : Nat) (ds : List Char), (∀ c ∈ ds, goodTailChar c) →
      ∀ c ∈ Nat.toDigitsCore 10 fuel n ds, goodTailChar c := by
  intro fuel
  induction fuel with
  | zero =>
    intro n ds hds c hc
    exact hds c hc
  | succ fuel ih =>
    intro n ds hds c hc
    have hcons : ∀ x ∈ Nat.digitChar (n % 10) :: ds, goodTailChar x := by
      intro x hx
      rcases List.mem_cons.mp hx with h | h
      · subst h
        exact digitChar_good _ (Nat.mod_lt n (by decide))
      · exact hds x h
    rw [Nat.toDigitsCore] at hc
    split at hc
    · exact hcons c hc
    · exact ih (n / 10) _ hcons c hc

theorem toDigitsCore_ne_nil :
    ∀ (fuel n : Nat) (ds : List Char), ds ≠ [] → Nat.toDigitsCore 10 fuel n ds ≠ [] := by
  intro fuel
  induction fuel with
  | zero =>
    intro n ds hds
    simpa [Nat.toDigitsCore] using hds
  | succ fuel ih =>
    intro n ds hds
    rw [Nat.toDigitsCore]
    split
    · simp
    · exact ih (n / 10) _ (by simp)

theorem toString_nat_good (d : Nat) :
    (toString d).data ≠ [] ∧ ∀ c ∈ (toString d).data, goodTailChar c := by
  have hdata : (toString d).data = Nat.toDigits 10 d := rfl
  rw [hdata]
  unfold Nat.toDigits
  constructor
  · rw [Nat.toDigitsCore]
    split
    · simp
    · exact toDigitsCore_ne_nil d (d / 10) _ (by simp)
  · exact toDigitsCore_good (d + 1) d [] (by simp)

theorem ne_dash_of_alnum {c : Char} (h : isLowerAlnum c = true) : c ≠ '-' := by
  intro hh
  rw [hh] at h
  exact absurd h (by decide)

theorem map_toLower_fixed {l : List Char} (h : ∀ c ∈ l, Char.toLower c = c) :
    l.map Char.toLower = l := by
  induction l with
  | nil => rfl
  | cons c cs ih =>
    have h1 : Char.toLower c = c := h c (List.mem_cons_self ..)
    have h2 := ih (fun x hx => h x (List.mem_cons_of_mem _ hx))
    simp [h1, h2]

/-- Core of the slug analysis, at the character-list level: appending
`'-' :: D` (a dash followed by a nonempty all-alphanumeric tail, as the
interpolation of the timestamp produces) before running the collapse-and-strip
pipeline is the same as running the pipeline on the title alone and appending
`'-' :: D` afterwards, provided the title's own pipeline output (the stem) is
nonempty. -/
theorem slug_pipeline (T D : List Char) (hDne : D ≠ [])
    (hDal : ∀ c ∈ D, isLowerAlnum c = true)
    (hstem : stripTrailDash (stripLeadDash (collapseAux false T)) ≠ []) :
    stripTrailDash (stripLeadDash (collapseAux false (T ++ '-' :: D)))
      = stripTrailDash (stripLeadDash (collapseAux false T)) ++ '-' :: D := by
  obtain ⟨dc, hdc⟩ := Option.isSome_iff_exists.mp (List.getLast?_isSome.mpr hDne)
  have hdcm : dc ∈ D := List.mem_of_getLast?_eq_some hdc
  have hdcn : dc ≠ '-' := ne_dash_of_alnum (hDal dc hdcm)
  have key : collapseAux false (T ++ '-' :: D)
      = collapseAux false T
        ++ ((if endsInRun false T then [] else ['-']) ++ D) := by
    rw [collapseAux_append_dash_alnum D hDal T false]
    rw [collapseAux_append_dash T false]
    simp [List.append_assoc]
  cases hrun : endsInRun false T with
  | false =>
    have key2 : collapseAux false (T ++ '-' :: D) = collapseAux false T ++ '-' :: D := by
      rw [key, hrun]
      simp
    have hCne : collapseAux false T ≠ [] := by
      intro hnil
      apply hstem
      rw [hnil]
      rfl
    have hTne : T ≠ [] := by
      intro hnil
      apply hCne
      rw [hnil]
      rfl
    obtain ⟨e, he, hlastC⟩ := collapseAux_getLast_of_not_run T false hrun hTne
    have hedash : e ≠ '-' := ne_dash_of_alnum he
    obtain ⟨hSLne, hSLlast⟩ := stripLeadDash_getLast hlastC hedash
    have hstemEq : stripTrailDash (stripLeadDash (collapseAux false T))
        = stripLeadDash (collapseAux false T) :=
      stripTrailDash_of_getLast_not_dash hSLlast hedash
    rw [key2]
    rw [stripLeadDash_append _ hCne]
    have hbig : (stripLeadDash (collapseAux false T) ++ '-' :: D).getLast? = some dc := by
      rw [List.getLast?_append, getLast?_cons_of_ne_nil '-' hDne, hdc]
      rfl
    rw [stripTrailDash_of_getLast_not_dash hbig hdcn]
    rw [hstemEq]
  | true =>
    have key2 : collapseAux false (T ++ '-' :: D) = collapseAux false T ++ D := by
      rw [key, hrun]
      simp
    rcases collapseAux_getLast_of_run T false hrun with hnil | hlastC
    · exfalso
      apply hstem
      rw [hnil]
      rfl
    · have hCne : collapseAux false T ≠ [] := by
        intro hnil
        rw [hnil] at hlastC
        simp at hlastC
      have hSLne : stripLeadDash (collapseAux false T) ≠ [] := by
        intro hnil
        apply hstem
        rw [hnil]
        rfl
      have hSLlast : (stripLeadDash (collapseAux false T)).getLast? = some '-' :=
        stripLeadDash_getLast_dash hlastC hSLne
      obtain ⟨ys, hys, hysStrip⟩ := stripTrailDash_of_getLast_dash hSLlast
      rw [key2]
      rw [stripLeadDash_append _ hCne]
      have hbig : (stripLeadDash (collapseAux false T) ++ D).getLast? = some dc := by
        rw [List.getLast?_append, hdc]
        rfl
      rw [stripTrailDash_of_getLast_not_dash hbig hdcn]
      rw [hysStrip, hys]
      simp

theorem makeSlug_eq_spec (title : String) (d : Nat) (hstem : slugifyP2 title ≠ "") :
    makeSlug title d = specMakeSlug title d := by
  obtain ⟨hDne, hDgood⟩ := toString_nat_good d
  have hDal : ∀ c ∈ (toString d).data, isLowerAlnum c = true := fun c hc => (hDgood c hc).1
  have hstem' :
      stripTrailDash (stripLeadDash (collapseAux false (title.data.map Char.toLower))) ≠ [] := by
    intro hnil
    apply hstem
    apply String.ext
    show (slugifyP2 title).data = ("" : String).data
    rw [show (slugifyP2 title).data
        = stripTrailDash (stripLeadDash (collapseAux false (title.data.map Char.toLower)))
        from rfl]
    rw [hnil]
  have hdata : (title ++ "-" ++ (toString d)).data.map Char.toLower
      = title.data.map Char.toLower ++ '-' :: (toString d).data := by
    rw [String.data_append, String.data_append, List.map_append, List.map_append]
    rw [map_toLower_fixed (fun c hc => (hDgood c hc).2)]
    have hdash : (("-" : String).data).map Char.toLower = ['-'] := by decide
    rw [hdash]
    simp [List.append_assoc]
  apply String.ext
  show (slugifyP2 (title ++ "-" ++ toString d)).data = (slugifyP2 title ++ "-" ++ toString d).data
  rw [String.data_append, String.data_append]
  rw [show (slugifyP2 (title ++ "-" ++ toString d)).data
      = stripTrailDash (stripLeadDash (collapseAux false
          ((title ++ "-" ++ toString d).data.map Char.toLower)))
      from rfl]
  rw [hdata]
  rw [slug_pipeline _ _ hDne hDal hstem']
  rw [show (slugifyP2 title).data
      = stripTrailDash (stripLeadDash (collapseAux false (title.data.map Char.toLower)))
      from rfl]
  rw [show ("-" : String).data = ['-'] from rfl, List.append_assoc, List.singleton_append]

/-! ### LIKE and filter lemmas -/

theorem likeTail_of_nil_true {f : List Char → Bool} (h : f [] = true) :
    ∀ s, likeTail f s = true := by
  intro s
  induction s with
  | nil => simpa [likeTail] using h
  | cons c cs ih => simp [likeTail, ih]

theorem likeMatch_pct_single : ∀ s, likeMatch ['%'] s = true := by
  intro s
  rw [show likeMatch ['%'] s = likeTail (likeMatch []) s from rfl]
  exact likeTail_of_nil_true rfl s

theorem likeMatch_pct_cons {ps s : List Char} (h : likeMatch ps s = true) :
    likeMatch ('%' :: ps) s = true := by
  rw [show likeMatch ('%' :: ps) s = likeTail (likeMatch ps) s from rfl]
  cases s with
  | nil => simpa [likeTail] using h
  | cons c cs => simp [likeTail, h]

theorem likeMatch_three_pct (s : List Char) : likeMatch ['%', '%', '%'] s = true :=
  likeMatch_pct_cons (likeMatch_pct_cons (likeMatch_pct_single s))

theorem sqlLike_pct_term_pct (s : String) : sqlLike "%%%" s = true := by
  unfold sqlLike
  rw [show ("%%%" : String).data = ['%', '%', '%'] from rfl]
  exact likeMatch_three_pct s.data

theorem matchesA_noFilters (c : Car) : matchesA noFilters c = true := by
  simp [matchesA, noFilters, active]

theorem matchesP2_noFilters (c : Car) : matchesP2 noFilters c = true := by
  simp [matchesP2, noFilters, active]

theorem matchesA_termPct (c : Car) : matchesA termPctFilters c = true := by
  simp [matchesA, termPctFilters, noFilters, active, sqlLike_pct_term_pct]

theorem matchesB_termPct (c : Car) : matchesB termPctFilters c = true := by
  simp [matchesB, termPctFilters, noFilters, active, sqlLike_pct_term_pct]

theorem matchesP2_termPct (c : Car) : matchesP2 termPctFilters c = true := by
  simp [matchesP2, termPctFilters, noFilters, active, sqlLike_pct_term_pct]

theorem matchesA_yearFilter (y : Int) (c : Car) :
    matchesA (yearFilter y) c = (c.year == y) := by
  simp [matchesA, yearFilter, noFilters, active]

theorem matchesP2_yearFilter (y : Int) (c : Car) :
    matchesP2 (yearFilter y) c = (c.year == y) := by
  simp [matchesP2, yearFilter, noFilters, active]

theorem orderBy_perm (l : List Car) : (orderByCreatedAtDesc l).Perm l :=
  List.perm_insertionSort newerFirst l

theorem orderBy_sorted (l : List Car) : List.Sorted newerFirst (orderByCreatedAtDesc l) :=
  List.sorted_insertionSort newerFirst l

theorem mem_orderBy {c : Car} {l : List Car} : c ∈ orderByCreatedAtDesc l ↔ c ∈ l :=
  List.mem_insertionSort newerFirst

/-! ### Photo upload loop lemmas -/

theorem savePhotosB_facts (carId now : Nat) :
    ∀ (names : List String) (db : DB),
      (savePhotosB carId now names db).images.map Image.filename
        = db.images.map Image.filename
          ++ names.map (fun n => toString now ++ "-" ++ sanitizeB n)
      ∧ (savePhotosB carId now names db).files
        = db.files ++ names.map (fun n => toString now ++ "-" ++ sanitizeB n)
      ∧ (savePhotosB carId now names db).cars = db.cars := by
  intro names
  induction names with
  | nil =>
    intro db
    refine ⟨?_, ?_, rfl⟩ <;> simp [savePhotosB]
  | cons n ns ih =>
    intro db
    have step : savePhotosB carId now (n :: ns) db
        = savePhotosB carId now ns
            (savePhoto carId (toString now ++ "-" ++ sanitizeB n)
              (toString now ++ "-" ++ sanitizeB n) db) := rfl
    rw [step]
    obtain ⟨h1, h2, h3⟩ := ih (savePhoto carId (toString now ++ "-" ++ sanitizeB n)
      (toString now ++ "-" ++ sanitizeB n) db)
    refine ⟨?_, ?_, ?_⟩
    · rw [h1]
      simp [savePhoto]
    · rw [h2]
      simp [savePhoto]
    · rw [h3]
      simp [savePhoto]

theorem savePhotosA_cars (carId now : Nat) :
    ∀ (names : List String) (db : DB), (savePhotosA carId now names db).cars = db.cars := by
  intro names
  induction names with
  | nil => intro db; rfl
  | cons n ns ih => intro db; exact ih _

theorem savePhotosP2_cars (carId now : Nat) :
    ∀ (names : List String) (db : DB), (savePhotosP2 carId now names db).cars = db.cars := by
  intro names
  induction names with
  | nil => intro db; rfl
  | cons n ns ih => intro db; exact ih _

/-- C1 counterexample: on variant A (server.js lines 128-153) a create with
the out-of-enum city is rejected by the storage CHECK constraint and surfaces
as the generic 500 response, not as the validation rejection (variant B's 400
before any write); nothing is written either way, but the claimed
ValidationError is absent in variant A. -/
theorem c1_counterexample :
    createA invalidCityPayload twelveFiles 55 emptyDB
      = (Outcome.status 500 "Error al crear auto", emptyDB)
    ∧ Outcome.status 500 "Error al crear auto" ≠ Outcome.status 400 "Ciudad invalida" := by
  constructor
  · decide
  · decide

/-- C1 (amended): for every payload whose city is outside the enum, every
create variant fails before persisting anything — variant B and part_002 with
an explicit 400 validation rejection, variant A with the storage CHECK
surfaced as a generic 500 — and the database state is returned unchanged: no
Listing row, no Photo row, no stored file. -/
theorem c1_invalid_city_writes_nothing (p : Payload) (files : List String) (now : Nat) (db : DB)
    (h : cities.contains p.city = false) :
    createB p files now db = (Outcome.status 400 "Ciudad invalida", db)
    ∧ createA p files now db = (Outcome.status 500 "Error al crear auto", db)
    ∧ createP2 p files now db = (Outcome.status 400 "Ciudad inválida", db) := by
  have h2 : p.city ∉ cities := by simpa using h
  refine ⟨?_, ?_, ?_⟩ <;> simp [createB, createA, createP2, h2]

/-- C1 witness at the concrete invalid payload. -/
theorem c1_witness :
    cities.contains invalidCityPayload.city = false
    ∧ createB invalidCityPayload twelveFiles 55 emptyDB
        = (Outcome.status 400 "Ciudad invalida", emptyDB) :=
  ⟨by decide, (c1_invalid_city_writes_nothing invalidCityPayload twelveFiles 55 emptyDB (by decide)).1⟩

/-- C2 counterexample: for a title with no alphanumeric characters the source
slug (part_002 applies the strip after appending the disambiguator) is just
the disambiguator, while the claim demands a leading dash. -/
theorem c2_counterexample :
    makeSlug "!!!" 123 = "123"
    ∧ specMakeSlug "!!!" 123 = "-123"
    ∧ makeSlug "!!!" 123 ≠ specMakeSlug "!!!" 123 := by
  refine ⟨?_, ?_, ?_⟩ <;> decide

/-- C2 (amended): whenever the title has a nonempty stem (at least one
alphanumeric character survives the slugification of the title alone), the
source slug equals the claimed one: the slugified title followed by a dash and
the decimal disambiguator. -/
theorem c2_makeSlug_spec (title : String) (d : Nat) (h : slugifyP2 title ≠ "") :
    makeSlug title d = specMakeSlug title d :=
  makeSlug_eq_spec title d h

/-- C2 witness at the seeded title. -/
theorem c2_witness :
    slugifyP2 "Mazda 3 i Touring" ≠ ""
    ∧ makeSlug "Mazda 3 i Touring" 123 = specMakeSlug "Mazda 3 i Touring" 123 :=
  ⟨by decide, c2_makeSlug_spec "Mazda 3 i Touring" 123 (by decide)⟩

/-- C3: on variant B (server.js lines 362-365) deleting the listing leaves its
Photo row behind — the declared ON DELETE CASCADE never fires because the
server connection never enables foreign keys — so a Photo row references a
nonexistent Listing; variant A's explicit second DELETE does clear them. -/
theorem c3_cascade_orphan :
    (deleteCarB 1 dbOnePhoto).2.cars = []
    ∧ (deleteCarB 1 dbOnePhoto).2.images = [⟨1, 1, "1700000000000-mazda.jpg"⟩]
    ∧ ((deleteCarB 1 dbOnePhoto).2.images.filter fun i => i.car_id == 1) ≠ []
    ∧ ((deleteCarA 1 dbOnePhoto).2.images.filter fun i => i.car_id == 1) = [] := by
  refine ⟨?_, ?_, ?_, ?_⟩ <;> decide

/-- C4: with no criteria, the inventory query of variant A and of part_002
returns exactly the stored listings (a permutation — no row added or dropped),
ordered by created_at descending. -/
theorem c4_no_criteria_returns_all (rows : List Car) :
    (inventarioQueryA noFilters rows).Perm rows
    ∧ List.Sorted newerFirst (inventarioQueryA noFilters rows)
    ∧ (inventarioQueryP2 noFilters rows).Perm rows
    ∧ List.Sorted newerFirst (inventarioQueryP2 noFilters rows) := by
  have hA : rows.filter (matchesA noFilters) = rows :=
    List.filter_eq_self.mpr fun a _ => matchesA_noFilters a
  have hP : rows.filter (matchesP2 noFilters) = rows :=
    List.filter_eq_self.mpr fun a _ => matchesP2_noFilters a
  refine ⟨?_, orderBy_sorted _, ?_, orderBy_sorted _⟩
  · show (orderByCreatedAtDesc (rows.filter (matchesA noFilters))).Perm rows
    rw [hA]
    exact orderBy_perm rows
  · show (orderByCreatedAtDesc (rows.filter (matchesP2 noFilters))).Perm rows
    rw [hP]
    exact orderBy_perm rows

/-- C5 counterexample: on variant B (server.js line 265) the year criterion is
`c.year >= ?`: a 2020 listing appears in the result of a 2017 year filter. -/
theorem c5_counterexample :
    carY2020 ∈ inventarioQueryB (yearFilter 2017) [carY2020]
    ∧ carY2020.year ≠ 2017 := by
  constructor
  · decide
  · decide

/-- C5 (amended): in variant A and part_002 the year filter is an exact match
(a listing is returned iff its year equals the filter value, all other
criteria absent); variant B instead uses the minimum-year semantic. -/
theorem c5_year_exact_match (y : Int) (rows : List Car) (c : Car) :
    (c ∈ inventarioQueryA (yearFilter y) rows ↔ c ∈ rows ∧ c.year = y)
    ∧ (c ∈ inventarioQueryP2 (yearFilter y) rows ↔ c ∈ rows ∧ c.year = y) := by
  constructor
  · simp [inventarioQueryA, mem_orderBy, List.mem_filter, matchesA_yearFilter]
  · simp [inventarioQueryP2, mem_orderBy, List.mem_filter, matchesP2_yearFilter]

/-- C8 counterexample: variant B (server.js lines 277-280) builds a live
wa.me link even when no phone number is configured, instead of the claimed
null-or-disabled value (part_002's `#`). -/
theorem c8_counterexample :
    waLinkB mazda "" "https://x.mx/auto/m" ≠ "#"
    ∧ (waLinkB mazda "" "https://x.mx/auto/m").data.take 14 = "https://wa.me/".data := by
  constructor
  · decide
  · decide

/-- C8 (amended): part_002's formatter is pure and returns the disabled value
`#` when no phone is configured; with a phone it returns the fixed wa.me
template around the percent-encoded message, which contains the title, the
year, and the upper-cased last six characters of the vin when one is present.
Variants A and B build a link unconditionally (variant A without encoding). -/
theorem c8_formatContactLink (car : Car) (phone : String) :
    (phone = "" → waLinkP2 car phone = "#")
    ∧ (phone ≠ "" →
        waLinkP2 car phone
          = "https://wa.me/" ++ phone ++ "?text=" ++ encodeURIComponent (waMsgP2 car)
        ∧ (∃ x y, (waMsgP2 car).data = x ++ car.title.data ++ y)
        ∧ (∃ x y, (waMsgP2 car).data = x ++ (toString car.year).data ++ y)
        ∧ (∀ v, car.vin = some v →
            ∃ x y, (waMsgP2 car).data = x ++ (sliceLast6 (toUpperStr v)).data ++ y)) := by
  constructor
  · intro h
    simp [waLinkP2, h]
  · intro h
    refine ⟨by simp [waLinkP2, h], ?_, ?_, ?_⟩
    · refine ⟨"Hola, me interesa el ".data,
        (" " ++ toString car.year ++ " (VIN • " ++ vin6P2 car ++ ")").data, ?_⟩
      simp [waMsgP2, String.data_append, List.append_assoc]
    · refine ⟨("Hola, me interesa el " ++ car.title ++ " ").data,
        (" (VIN • " ++ vin6P2 car ++ ")").data, ?_⟩
      simp [waMsgP2, String.data_append, List.append_assoc]
    · intro v hv
      refine ⟨("Hola, me interesa el " ++ car.title ++ " " ++ toString car.year
          ++ " (VIN • ").data, ")".data, ?_⟩
      simp [waMsgP2, vin6P2, hv, String.data_append, List.append_assoc]

/-- C8 witness at the seeded listing: disabled value without a phone,
full template with one, message carrying the last six vin characters. -/
theorem c8_witness :
    waLinkP2 mazda "" = "#"
    ∧ waLinkP2 mazda "525536343619"
        = "https://wa.me/" ++ "525536343619" ++ "?text=" ++ encodeURIComponent (waMsgP2 mazda)
    ∧ (∃ x y, (waMsgP2 mazda).data
        = x ++ (sliceLast6 (toUpperStr "JM1BN123456789000")).data ++ y) :=
  ⟨(c8_formatContactLink mazda "").1 rfl,
    ((c8_formatContactLink mazda "525536343619").2 (by decide)).1,
    ((c8_formatContactLink mazda "525536343619").2 (by decide)).2.2.2 "JM1BN123456789000" rfl⟩

/-- C9: every row a create variant adds has is_sold = false no matter what the
payload carries; the update route overwrites is_sold from the payload; and the
delete/detach routes never add or modify a listing row — so the flag can only
become true through an update. -/
theorem c9_is_sold_lifecycle :
    (∀ (p : Payload) (files : List String) (now : Nat) (db : DB) (c : Car),
        c ∈ (createB p files now db).2.cars → c ∉ db.cars → c.is_sold = false)
    ∧ (∀ (p : Payload) (files : List String) (now : Nat) (db : DB) (c : Car),
        c ∈ (createA p files now db).2.cars → c ∉ db.cars → c.is_sold = false)
    ∧ (∀ (p : Payload) (files : List String) (now : Nat) (db : DB) (c : Car),
        c ∈ (createP2 p files now db).2.cars → c ∉ db.cars → c.is_sold = false)
    ∧ (∀ (id : Nat) (p : Payload) (files : List String) (now : Nat) (db : DB) (c : Car),
        c ∈ (updateB id p files now db).2.cars → c ∉ db.cars → c.is_sold = p.is_sold)
    ∧ (∀ (id : Nat) (fileOk : Bool) (db : DB) (c : Car),
        (c ∈ (deleteCarA id db).2.cars → c ∈ db.cars)
        ∧ (c ∈ (deleteCarB id db).2.cars → c ∈ db.cars)
        ∧ (detachPhoto id fileOk db).2.cars = db.cars) := by
  refine ⟨?_, ?_, ?_, ?_, ?_⟩
  · intro p files now db c hc hnc
    by_cases h : p.city ∈ cities
    · cases hbc : (bindOkB p && checkOkB p) with
      | false =>
        simp [createB, h, hbc] at hc
        exact absurd hc hnc
      | true =>
        simp [createB, h, hbc] at hc
        rw [(savePhotosB_facts db.nextCarId now (files.take 10) _).2.2] at hc
        simp at hc
        rcases hc with hc | hc
        · exact absurd hc hnc
        · rw [hc]
    · simp [createB, h] at hc
      exact absurd hc hnc
  · intro p files now db c hc hnc
    by_cases h : p.city ∈ cities
    · simp [createA, h] at hc
      rw [savePhotosA_cars db.nextCarId now files _] at hc
      simp at hc
      rcases hc with hc | hc
      · exact absurd hc hnc
      · rw [hc]
    · simp [createA, h] at hc
      exact absurd hc hnc
  · intro p files now db c hc hnc
    by_cases h : p.city ∈ cities
    · cases hp2 : enumFieldsOkP2 p with
      | false =>
        simp [createP2, h, hp2] at hc
        exact absurd hc hnc
      | true =>
        simp [createP2, h, hp2] at hc
        rw [savePhotosP2_cars db.nextCarId now (files.take 10) _] at hc
        simp at hc
        rcases hc with hc | hc
        · exact absurd hc hnc
        · rw [hc]
    · simp [createP2, h] at hc
      exact absurd hc hnc
  · intro id p files now db c hc hnc
    by_cases h : p.city ∈ cities
    · cases ht : updateThrows id p db with
      | true =>
        simp [updateB, h, ht] at hc
        exact absurd hc hnc
      | false =>
        simp [updateB, h, ht] at hc
        rw [(savePhotosB_facts id now (files.take 10) _).2.2] at hc
        simp at hc
        rcases hc with ⟨x, hx, hgx⟩
        by_cases hid : x.id = id
        · rw [← hgx]
          simp [hid]
        · rw [if_neg hid] at hgx
          rw [← hgx] at hnc
          exact absurd hx hnc
    · simp [updateB, h] at hc
      exact absurd hc hnc
  · intro id fileOk db c
    refine ⟨fun hc => List.mem_of_mem_filter hc, fun hc => List.mem_of_mem_filter hc, ?_⟩
    cases hf : db.images.find? (fun i => i.id == id) <;> simp [detachPhoto, hf]

/-- C9 witness: creating with a payload whose is_sold is true still yields a
row with is_sold = false, and the update route flips the same row to true. -/
theorem c9_witness :
    soldPayload.is_sold = true
    ∧ createdCar7 ∈ (createB soldPayload [] 7 emptyDB).2.cars
    ∧ createdCar7.is_sold = false
    ∧ updatedCar8.is_sold = true :=
  ⟨by decide, by decide,
    c9_is_sold_lifecycle.1 soldPayload [] 7 emptyDB createdCar7 (by decide) (by decide),
    (c9_is_sold_lifecycle.2.2.2.1 1 soldPayload [] 8 dbOnePhoto updatedCar8
      (by decide) (by decide)).trans (by decide)⟩

/-- C10: the term is spliced into the LIKE pattern unescaped, so the term
consisting of the single wildcard `%` matches every listing in all three
variants (the result is a permutation of the whole table), including the
seeded listing, whose title and description do not contain a literal `%`. -/
theorem c10_like_wildcard :
    (∀ rows : List Car, (inventarioQueryA termPctFilters rows).Perm rows)
    ∧ (∀ rows : List Car, (inventarioQueryB termPctFilters rows).Perm rows)
    ∧ (∀ rows : List Car, (inventarioQueryP2 termPctFilters rows).Perm rows)
    ∧ containsSub "%".data mazda.title.data = false
    ∧ containsSub "%".data "Muy cuidado, servicios al día".data = false
    ∧ mazda ∈ inventarioQueryA termPctFilters [mazda] := by
  refine ⟨?_, ?_, ?_, by decide, by decide, by decide⟩
  · intro rows
    show (orderByCreatedAtDesc (rows.filter (matchesA termPctFilters))).Perm rows
    rw [List.filter_eq_self.mpr fun a _ => matchesA_termPct a]
    exact orderBy_perm rows
  · intro rows
    show (orderByCreatedAtDesc (rows.filter (matchesB termPctFilters))).Perm rows
    rw [List.filter_eq_self.mpr fun a _ => matchesB_termPct a]
    exact orderBy_perm rows
  · intro rows
    show (orderByCreatedAtDesc (rows.filter (matchesP2 termPctFilters))).Perm rows
    rw [List.filter_eq_self.mpr fun a _ => matchesP2_termPct a]
    exact orderBy_perm rows

end SpaceMotors
